import Mathlib

/-!
Shallow embedding of the Firebase cloud functions in functions/src/index.ts
(the nRF location tracker), together with proofs about the geofence
evaluation, alert dispatch, LED indicator control, lock bookkeeping and
push-token registration logic.

Modelling conventions:
* Firestore collections are association lists keyed by document id;
  doc(k).set is setDoc (replace or append), doc(k).update is updateDoc,
  collection.add on movement_alerts uses a fresh numeric id counter.
* ISO timestamp strings are kept as String; Firestore server timestamps
  are modelled as presence flags (the claims only depend on presence).
* Coordinates and distances are rationals in the stateful model; the
  haversine formula itself is modelled over the reals.
* Outcomes of the external transports (the nRF Cloud LED PATCH, the FCM
  topic send, the per-token multicast) are supplied by an Env oracle.
  The source swallows transport errors inside each helper, which the
  model mirrors faithfully: a helper that catches its own exceptions
  cannot make its await in the caller throw.
* Externally visible actions (sends, LED commands, dispatch calls,
  history appends) are counted in an Effects record so that frame and
  temporal claims can be stated.
* Presentation-only fields of the documents (message text, icons,
  uncertainty, originalLocationData) are omitted: no claim mentions them.
-/

namespace Tracker

/-- Severity tier of a movement alert. -/
inductive Severity
  | low
  | medium
  | high
deriving DecidableEq, Repr

/-- Severity assignment, from index.ts line 810:
distance > 50 ? high : distance > 25 ? medium : low. -/
def severityOf (d : ℚ) : Severity :=
  if d > 50 then .high else if d > 25 then .medium else .low

/-- The movement guard, from index.ts line 793: if (distance > 10). -/
def movementDetected (d : ℚ) : Bool :=
  decide (d > 10)

/-- JavaScript Math.atan2 restricted to real arguments. -/
noncomputable def atan2 (y x : ℝ) : ℝ :=
  if 0 < x then Real.arctan (y / x)
  else if x < 0 ∧ 0 ≤ y then Real.arctan (y / x) + Real.pi
  else if x < 0 then Real.arctan (y / x) - Real.pi
  else if 0 < y then Real.pi / 2
  else if y < 0 then -(Real.pi / 2)
  else 0

/-- The haversine intermediate value a of calculateDistance
(index.ts lines 63 to 68): sin(dLat/2)^2 + cos(lat1)cos(lat2)sin(dLon/2)^2
with the deltas converted to radians. -/
noncomputable def havA (lat1 lon1 lat2 lon2 : ℝ) : ℝ :=
  Real.sin ((lat2 - lat1) * Real.pi / 180 / 2) *
      Real.sin ((lat2 - lat1) * Real.pi / 180 / 2) +
    Real.cos (lat1 * Real.pi / 180) * Real.cos (lat2 * Real.pi / 180) *
      (Real.sin ((lon2 - lon1) * Real.pi / 180 / 2) *
        Real.sin ((lon2 - lon1) * Real.pi / 180 / 2))

/-- calculateDistance (index.ts lines 61 to 71):
R * c where R = 6371000 and c = 2 * atan2(sqrt a, sqrt (1 - a)). -/
noncomputable def calculateDistance (lat1 lon1 lat2 lon2 : ℝ) : ℝ :=
  6371000 *
    (2 * atan2 (Real.sqrt (havA lat1 lon1 lat2 lon2))
      (Real.sqrt (1 - havA lat1 lon1 lat2 lon2)))

/-- Geographic coordinate as stored in the Firestore documents. -/
structure Loc where
  lat : ℚ
  lon : ℚ
deriving DecidableEq, Repr

/-- Token type distinguished by registerFCMToken. -/
inductive TokenType
  | expo
  | fcm
deriving DecidableEq, Repr

/-- A user_push_tokens document (interface TokenData, index.ts lines 49 to 58);
the two server timestamps are omitted. -/
structure TokenData where
  deviceId : String
  pushToken : String
  tokenType : TokenType
  userId : String
  platform : String
  active : Bool
deriving DecidableEq, Repr

/-- A movement_alerts document (interface MovementAlert, index.ts lines
24 to 46); the message text and timestamps are omitted, ledActivated is the
flag set by the post-dispatch update. -/
structure MovementAlert where
  deviceId : String
  alertType : String
  distance : ℚ
  threshold : ℚ
  lockedLocation : Loc
  currentLocation : Loc
  lockedAt : String
  severity : Severity
  source : String
  notificationSent : Bool
  ledActivated : Bool := false
deriving DecidableEq, Repr

/-- An LED configuration payload for the nRF Cloud device state PATCH. -/
structure LedConfig where
  red : ℕ
  green : ℕ
  blue : ℕ
  durationOnMsec : ℕ
  durationOffMsec : ℕ
  repetitions : ℕ
deriving DecidableEq, Repr

/-- The fixed alert pattern of turnOnMovementAlertLED (index.ts lines
108 to 115): cyan-blue, 500 ms on, 1000 ms off, 5 repetitions. -/
def movementAlertLedConfig : LedConfig :=
  { red := 0, green := 0, blue := 255,
    durationOnMsec := 500, durationOffMsec := 1000, repetitions := 5 }

/-- The all-zero payload sent by turnOffLED (index.ts lines 132 to 139). -/
def ledOffConfig : LedConfig :=
  { red := 0, green := 0, blue := 0,
    durationOnMsec := 0, durationOffMsec := 0, repetitions := 0 }

/-- What one call of turnOnMovementAlertLED does: the pattern sent now and
the delays (in ms) of the scheduled turn-off commands. -/
structure LedEffect where
  sent : LedConfig
  deactivationDelaysMs : List ℕ
deriving DecidableEq, Repr

/-- turnOnMovementAlertLED (index.ts lines 106 to 127): sends the fixed
pattern via controlNRFCloudLED and then schedules turnOffLED through a
single setTimeout of 60000 ms. controlNRFCloudLED catches its own errors
and merely returns a boolean, which the caller ignores, so the setTimeout
runs whether or not the activation PATCH succeeded; the argument records
that outcome and is deliberately unused. -/
def turnOnMovementAlertLED (_activationOutcome : Bool) : LedEffect :=
  { sent := movementAlertLedConfig, deactivationDelaysMs := [60000] }

/-- Aggregate counts of a notification_summary document (index.ts lines
377 to 387); timestamps and the copied alert payload are omitted. -/
structure DeliverySummary where
  fcmTokenCount : ℕ
  expoTokenCount : ℕ
  fcmSuccess : Bool
  expoSuccess : Bool
  overallSuccess : Bool
deriving DecidableEq, Repr

/-- A locked_locations document (index.ts lines 417 to 431 for creation,
lines 842 to 847 and 858 to 862 for the evaluation-tick updates). The
Firestore server timestamps lastAlertAt and lastCheckedAt are modelled as
presence flags; alertCount is absent until the first increment. -/
structure LockRec where
  deviceId : String
  lockedAt : String
  location : Loc
  status : String
  lastMovementAlert : Option MovementAlert := none
  lastAlertAt : Bool := false
  lastCheckedAt : Bool := false
  currentDistance : Option ℚ := none
  alertCount : Option ℕ := none
deriving DecidableEq, Repr

/-- A location_lock_history entry: the action tag and the document state
that was spread into the entry (index.ts lines 439 to 442 and 520 to 523). -/
structure LockHistoryEntry where
  action : String
  data : LockRec
deriving DecidableEq, Repr

/-- The Firestore collections touched by the modelled functions.
location_history entries carry no claim-relevant data, so only their
number is tracked. -/
structure Store where
  lockedLocations : List (String × LockRec) := []
  movementAlerts : List (ℕ × MovementAlert) := []
  nextAlertId : ℕ := 0
  userPushTokens : List (String × TokenData) := []
  locationHistory : ℕ := 0
  lockHistory : List LockHistoryEntry := []
  notificationSummaries : List DeliverySummary := []
  failedTokenDocs : List (List String) := []
deriving DecidableEq, Repr

/-- Outcomes of the external transports, supplied as an oracle. -/
structure Env where
  ledOk : Bool
  topicOk : Bool
  mcOk : String → Bool

/-- Counters of externally visible actions performed by one handler run. -/
structure Effects where
  locationHistoryWrites : ℕ := 0
  ledActivations : ℕ := 0
  ledDeactivationDelays : List ℕ := []
  topicSendAttempts : ℕ := 0
  multicastBatches : ℕ := 0
  dispatchAttempts : ℕ := 0
deriving DecidableEq, Repr

/-- Pointwise accumulation of effects. -/
def Effects.add (e f : Effects) : Effects :=
  { locationHistoryWrites := e.locationHistoryWrites + f.locationHistoryWrites,
    ledActivations := e.ledActivations + f.ledActivations,
    ledDeactivationDelays := e.ledDeactivationDelays ++ f.ledDeactivationDelays,
    topicSendAttempts := e.topicSendAttempts + f.topicSendAttempts,
    multicastBatches := e.multicastBatches + f.multicastBatches,
    dispatchAttempts := e.dispatchAttempts + f.dispatchAttempts }

/-- The effects of one turnOnMovementAlertLED call. -/
def LedEffect.toEffects (e : LedEffect) : Effects :=
  { ledActivations := 1, ledDeactivationDelays := e.deactivationDelaysMs }

/-- The effects of the unconditional location_history append of the
scheduled handler (index.ts lines 762 to 768). -/
def historyOnlyEffects : Effects :=
  { locationHistoryWrites := 1 }

/-- Point read of a document by id. -/
def getDoc {κ α : Type} [DecidableEq κ] : List (κ × α) → κ → Option α
  | [], _ => none
  | p :: rest, k => if p.1 = k then some p.2 else getDoc rest k

/-- doc(k).set(v): replace the document if it exists, else append it. -/
def setDoc {κ α : Type} [DecidableEq κ] : List (κ × α) → κ → α → List (κ × α)
  | [], k, v => [(k, v)]
  | p :: rest, k, v => if p.1 = k then (k, v) :: rest else p :: setDoc rest k v

/-- doc(k).update(f): apply f to the document if it exists. -/
def updateDoc {κ α : Type} [DecidableEq κ] : List (κ × α) → κ → (α → α) → List (κ × α)
  | [], _, _ => []
  | p :: rest, k, f => if p.1 = k then (k, f p.2) :: rest else p :: updateDoc rest k f

/-- The query of index.ts lines 306 to 309: user_push_tokens where
deviceId == alert.deviceId and active == true. -/
def activeTokensFor (s : Store) (deviceId : String) : List TokenData :=
  (s.userPushTokens.map Prod.snd).filter
    (fun t => t.deviceId == deviceId && t.active)

/-- The token partition of index.ts lines 331 to 338: expo tokens go to the
expo list, everything else to the fcm list. -/
def fcmTokensOf (regs : List TokenData) : List String :=
  (regs.filter (fun t => !(t.tokenType == TokenType.expo))).map
    (fun t => t.pushToken)

/-- Expo half of the same partition. -/
def expoTokensOf (regs : List TokenData) : List String :=
  (regs.filter (fun t => t.tokenType == TokenType.expo)).map
    (fun t => t.pushToken)

/-- sendFCMNotificationsToUsers (index.ts lines 213 to 293): returns
immediately when the token list is empty; otherwise performs one
sendEachForMulticast batch and, when some recipients failed, appends one
failed_tokens document listing them. All errors are caught internally, so
the function never throws to its caller. -/
def sendFCMNotificationsToUsers (env : Env) (s : Store)
    (userTokens : List String) : Store :=
  if userTokens.isEmpty then s
  else
    let failed := userTokens.filter (fun t => !(env.mcOk t))
    if failed.isEmpty then s
    else { s with failedTokenDocs := s.failedTokenDocs ++ [failed] }

/-- sendMovementAlertNotification (index.ts lines 297 to 397). Returns the
new store, the effects performed, and the boolean result. Faithful points:
the LED is activated first (line 303); with no registered tokens the
function sends only the topic broadcast and returns false without writing
any summary (lines 311 to 323); fcmSuccess is set to true right after the
awaited sendFCMNotificationsToUsers call, which never throws, so it is
true exactly when some fcm token exists; expoSuccess stays false because
the expo branch is commented out; the topic broadcast is attempted
unconditionally afterwards and its result is discarded; the summary is
written and success = fcmSuccess or expoSuccess is returned. -/
def sendMovementAlertNotification (env : Env) (s : Store)
    (alert : MovementAlert) : Store × Effects × Bool :=
  let led := turnOnMovementAlertLED env.ledOk
  let regs := activeTokensFor s alert.deviceId
  if regs.isEmpty then
    (s, led.toEffects.add { topicSendAttempts := 1, dispatchAttempts := 1 },
      false)
  else
    let fcmTokens := fcmTokensOf regs
    let expoTokens := expoTokensOf regs
    let s1 := if fcmTokens.isEmpty then s
              else sendFCMNotificationsToUsers env s fcmTokens
    let fcmSuccess := !fcmTokens.isEmpty
    let expoSuccess := false
    let success := fcmSuccess || expoSuccess
    let summary : DeliverySummary :=
      { fcmTokenCount := fcmTokens.length, expoTokenCount := expoTokens.length,
        fcmSuccess := fcmSuccess, expoSuccess := expoSuccess,
        overallSuccess := success }
    let s2 := { s1 with
      notificationSummaries := s1.notificationSummaries ++ [summary] }
    (s2,
      led.toEffects.add
        { topicSendAttempts := 1,
          multicastBatches := if fcmTokens.isEmpty then 0 else 1,
          dispatchAttempts := 1 },
      success)

/-- The update applied to an alert document after a successful dispatch
(index.ts lines 684 to 689 and 829 to 834). -/
def markSent (a : MovementAlert) : MovementAlert :=
  { a with notificationSent := true, ledActivated := true }

/-- The core of the scheduled handler scheduledLocationHistory (index.ts
lines 736 to 879) after the nRF Cloud fetch, which supplies items. The
handler always appends one location_history entry; then, if a
locked_locations document exists and the latest item has truthy
coordinates (0 is falsy in JavaScript), it computes the distance. Above
10 it appends an unsent movement alert, activates the LED directly, calls
the dispatcher (which activates the LED again), marks the alert sent only
when the dispatcher returned true, and updates the lock document with the
alert info; at 10 or below it updates the lock document with the safe
status. dist stands for calculateDistance. -/
def scheduledLocationHistory (env : Env) (dist : Loc → Loc → ℚ)
    (deviceId : String) (s : Store) (items : List Loc) : Store × Effects :=
  let s1 : Store := { s with locationHistory := s.locationHistory + 1 }
  match getDoc s1.lockedLocations deviceId, items with
  | some lockedData, current :: _ =>
    if current.lat ≠ 0 ∧ current.lon ≠ 0 then
      let d := dist lockedData.location current
      if d > 10 then
        let alert : MovementAlert :=
          { deviceId := deviceId, alertType := "movement_detected",
            distance := d, threshold := 10,
            lockedLocation := lockedData.location, currentLocation := current,
            lockedAt := lockedData.lockedAt, severity := severityOf d,
            source := "scheduled_check", notificationSent := false }
        let alertId := s1.nextAlertId
        let s2 : Store := { s1 with
          movementAlerts := (alertId, alert) :: s1.movementAlerts,
          nextAlertId := alertId + 1 }
        let led := turnOnMovementAlertLED env.ledOk
        let r := sendMovementAlertNotification env s2 alert
        let s3 := r.1
        let s4 : Store :=
          if r.2.2 then
            { s3 with movementAlerts := updateDoc s3.movementAlerts alertId markSent }
          else s3
        let s5 : Store := { s4 with
          lockedLocations := updateDoc s4.lockedLocations deviceId
            (fun rec0 => { rec0 with
              lastMovementAlert := some alert, lastAlertAt := true,
              currentDistance := some d,
              alertCount := some (rec0.alertCount.getD 0 + 1) }) }
        (s5, (historyOnlyEffects.add led.toEffects).add r.2.1)
      else
        let s2 : Store := { s1 with
          lockedLocations := updateDoc s1.lockedLocations deviceId
            (fun rec0 => { rec0 with
              lastCheckedAt := true, currentDistance := some d,
              status := "locked_safe" }) }
        (s2, historyOnlyEffects)
    else (s1, historyOnlyEffects)
  | _, _ => (s1, historyOnlyEffects)

/-- The snapshot query of getMovementAlerts (index.ts lines 640 to 656):
movement_alerts where deviceId matches, newest first (the list is kept
newest first), optionally filtered by severity, limited. -/
def listingRead (s : Store) (deviceId : String) (limit : ℕ)
    (severityFilter : Option Severity) : List (ℕ × MovementAlert) :=
  ((s.movementAlerts.filter (fun p =>
      p.2.deviceId == deviceId &&
        match severityFilter with
        | some v => p.2.severity == v
        | none => true)).take limit)

/-- The highDistanceAlerts selection of index.ts lines 666 to 670:
alert.distance truthy and above 10, not yet notified, severity not low. -/
def highDistanceFilter (a : MovementAlert) : Bool :=
  !(a.distance == 0) && decide (a.distance > 10) && !a.notificationSent &&
    !(a.severity == Severity.low)

/-- One iteration of the notification loop of getMovementAlerts (index.ts
lines 674 to 703): activate the LED directly, dispatch the snapshot alert,
and mark the stored document sent only when the dispatcher returned true. -/
def listingStep (env : Env) (acc : Store × Effects)
    (p : ℕ × MovementAlert) : Store × Effects :=
  let led := turnOnMovementAlertLED env.ledOk
  let r := sendMovementAlertNotification env acc.1 p.2
  let s2 : Store :=
    if r.2.2 then
      { r.1 with movementAlerts := updateDoc r.1.movementAlerts p.1 markSent }
    else r.1
  (s2, (acc.2.add led.toEffects).add r.2.1)

/-- The write-relevant core of getMovementAlerts (index.ts lines 631 to
731): read the snapshot, select the pending high-distance alerts, and run
the notification loop over that snapshot. -/
def getMovementAlerts (env : Env) (s : Store) (deviceId : String)
    (limit : ℕ) (severityFilter : Option Severity) : Store × Effects :=
  let pending := (listingRead s deviceId limit severityFilter).filter
    (fun p => highDistanceFilter p.2)
  pending.foldl (listingStep env) (s, {})

/-- Two concurrent getMovementAlerts handlers for the same device, each of
which completes its movement_alerts query before either performs its
updates: both act on the same snapshot. Every await in the handler is a
yield point, so this interleaving is reachable. -/
def concurrentDoubleListing (env : Env) (s : Store) (deviceId : String)
    (limit : ℕ) : Store × Effects :=
  let p1 := (listingRead s deviceId limit none).filter
    (fun p => highDistanceFilter p.2)
  let p2 := (listingRead s deviceId limit none).filter
    (fun p => highDistanceFilter p.2)
  let r1 := p1.foldl (listingStep env) (s, {})
  let r2 := p2.foldl (listingStep env) (r1.1, {})
  (r2.1, r1.2.add r2.2)

/-- n successive getMovementAlerts runs on the same device. -/
def iterListing (env : Env) (deviceId : String) (limit : ℕ)
    (severityFilter : Option Severity) : ℕ → Store → Store × Effects
  | 0, s => (s, {})
  | Nat.succ n, s =>
    let r1 := getMovementAlerts env s deviceId limit severityFilter
    let r2 := iterListing env deviceId limit severityFilter n r1.1
    (r2.1, r1.2.add r2.2)

/-- The document created by postLockedLocation (index.ts lines 417 to
431): fresh lock data with no distance, alert or check fields. -/
def mkLockRec (deviceId : String) (lockedAtParam : Option String)
    (loc : Loc) (statusParam : Option String) (nowIso : String) : LockRec :=
  { deviceId := deviceId, lockedAt := lockedAtParam.getD nowIso,
    location := loc, status := statusParam.getD "locked" }

/-- postLockedLocation (index.ts lines 399 to 468): after validation
(missing deviceId or falsy coordinates give a 400 with no writes, and 0 is
falsy in JavaScript), doc(deviceId).set replaces any existing lock, and the
new document data, spread together with action lock, is appended to
location_lock_history. Returns the new store and the success flag. -/
def postLockedLocation (s : Store) (deviceId : String)
    (lockedAtParam : Option String) (loc : Loc)
    (statusParam : Option String) (nowIso : String) : Store × Bool :=
  if deviceId = "" ∨ loc.lat = 0 ∨ loc.lon = 0 then (s, false)
  else
    let newRec := mkLockRec deviceId lockedAtParam loc statusParam nowIso
    ({ s with
        lockedLocations := setDoc s.lockedLocations deviceId newRec,
        lockHistory := s.lockHistory ++ [{ action := "lock", data := newRec }] },
      true)

/-- JavaScript substring(0, n), modelled on the character sequence. -/
def strTake (s : String) (n : ℕ) : String :=
  ⟨s.data.take n⟩

/-- JavaScript startsWith, modelled on the character sequence. -/
def strStarts (s p : String) : Bool :=
  s.data.take p.data.length == p.data

/-- The document id of registerFCMToken (index.ts line 569):
deviceId + underscore + the first 20 characters of the token. -/
def tokenKey (deviceId fcmToken : String) : String :=
  deviceId ++ "_" ++ strTake fcmToken 20

/-- The TokenData document stored by registerFCMToken (index.ts lines
573 to 582); timestamps omitted. -/
def mkTokenData (deviceId fcmToken : String)
    (userIdParam platformParam tokenTypeParam : Option String) : TokenData :=
  let isExpoToken := tokenTypeParam == some "expo" ||
    strStarts fcmToken "ExponentPushToken["
  { deviceId := deviceId, pushToken := fcmToken,
    tokenType := if isExpoToken then .expo else .fcm,
    userId := userIdParam.getD "anonymous",
    platform := platformParam.getD "unknown", active := true }

/-- registerFCMToken (index.ts lines 552 to 627): after validation,
doc(tokenKey).set stores the token document; the topic subscription has no
effect on the store. Returns the new store and the success flag. -/
def registerFCMToken (s : Store) (deviceId fcmToken : String)
    (userIdParam platformParam tokenTypeParam : Option String) :
    Store × Bool :=
  if deviceId = "" ∨ fcmToken = "" then (s, false)
  else
    ({ s with
        userPushTokens := setDoc s.userPushTokens (tokenKey deviceId fcmToken)
          (mkTokenData deviceId fcmToken userIdParam platformParam tokenTypeParam) },
      true)

/-- Oracle in which every transport call succeeds. -/
def envAllOk : Env :=
  { ledOk := true, topicOk := true, mcOk := fun _ => true }

/-- Oracle in which every transport call fails. -/
def envAllFail : Env :=
  { ledOk := false, topicOk := false, mcOk := fun _ => false }

/-- The reference position of the test scenarios. -/
def loc0 : Loc := { lat := 10, lon := 20 }

/-- A displaced current position for the test scenarios. -/
def loc1 : Loc := { lat := 11, lon := 20 }

/-- A store holding one lock for device dev1 at loc0, produced by the
lock operation itself. -/
def lockFixture : Store :=
  (postLockedLocation {} "dev1" (some "t0") loc0 none "t0").1

/-- The store after a scheduled tick on lockFixture that measures a
distance of 30 m with no registered tokens: it holds one unsent
medium-severity alert, because the dispatcher returned false. -/
def cMed : Store :=
  (scheduledLocationHistory envAllOk (fun _ _ => 30) "dev1" lockFixture [loc1]).1

/-- The store after a scheduled tick on lockFixture that measures a
distance of 15 m with no registered tokens: it holds one unsent
low-severity alert, because the dispatcher returned false. -/
def cLow : Store :=
  (scheduledLocationHistory envAllOk (fun _ _ => 15) "dev1" lockFixture [loc1]).1

/-- cMed after an fcm token is registered for dev1: one unsent
medium-severity alert and one active direct recipient. -/
def cMedTok : Store :=
  (registerFCMToken cMed "dev1" "AAAABBBBCCCCDDDDEEEE1234" none none none).1

/-- A store holding one active fcm token for dev1 and nothing else. -/
def tokStore : Store :=
  (registerFCMToken {} "dev1" "AAAABBBBCCCCDDDDEEEEFFFF" none none none).1

/-- A detached movement alert used as dispatcher input. -/
def alertFixture : MovementAlert :=
  { deviceId := "dev1", alertType := "movement_detected", distance := 30,
    threshold := 10, lockedLocation := loc0, currentLocation := loc1,
    lockedAt := "t0", severity := Severity.medium, source := "scheduled_check",
    notificationSent := false }

/-- Reading back the document just set yields the new value. -/
theorem getDoc_setDoc_same {κ α : Type} [DecidableEq κ]
    (l : List (κ × α)) (k : κ) (v : α) :
    getDoc (setDoc l k v) k = some v := by
  induction l with
  | nil => simp [setDoc, getDoc]
  | cons p rest ih =>
    by_cases h : p.1 = k
    · simp [setDoc, getDoc, h]
    · simp [setDoc, getDoc, h, ih]

/-- Setting one document does not change reads of other documents. -/
theorem getDoc_setDoc_ne {κ α : Type} [DecidableEq κ]
    (l : List (κ × α)) (k k' : κ) (v : α) (h : k' ≠ k) :
    getDoc (setDoc l k v) k' = getDoc l k' := by
  induction l with
  | nil => simp [setDoc, getDoc, Ne.symm h]
  | cons p rest ih =>
    by_cases hp : p.1 = k
    · simp [setDoc, getDoc, hp, Ne.symm h, h]
    · simp [setDoc, getDoc, hp, ih]

/-- Setting the same document to the same value twice equals setting it
once. -/
theorem setDoc_setDoc_same {κ α : Type} [DecidableEq κ]
    (l : List (κ × α)) (k : κ) (v : α) :
    setDoc (setDoc l k v) k v = setDoc l k v := by
  induction l with
  | nil => simp [setDoc]
  | cons p rest ih =>
    by_cases h : p.1 = k
    · simp [setDoc, h]
    · simp [setDoc, h, ih]

/-- The dispatcher activates the LED exactly once per call, on both the
empty-token and the populated path. -/
theorem dispatch_led_activations (env : Env) (s : Store) (a : MovementAlert) :
    (sendMovementAlertNotification env s a).2.1.ledActivations = 1 := by
  cases hr : (activeTokensFor s a.deviceId).isEmpty <;>
    simp [sendMovementAlertNotification, hr, Effects.add, LedEffect.toEffects,
      turnOnMovementAlertLED]

/-- Each dispatcher call schedules exactly one LED deactivation, 60000 ms
out. -/
theorem dispatch_led_delays (env : Env) (s : Store) (a : MovementAlert) :
    (sendMovementAlertNotification env s a).2.1.ledDeactivationDelays = [60000] := by
  cases hr : (activeTokensFor s a.deviceId).isEmpty <;>
    simp [sendMovementAlertNotification, hr, Effects.add, LedEffect.toEffects,
      turnOnMovementAlertLED]

/-- The dispatcher makes exactly one dispatch attempt per call. -/
theorem dispatch_attempts_one (env : Env) (s : Store) (a : MovementAlert) :
    (sendMovementAlertNotification env s a).2.1.dispatchAttempts = 1 := by
  cases hr : (activeTokensFor s a.deviceId).isEmpty <;>
    simp [sendMovementAlertNotification, hr, Effects.add, LedEffect.toEffects,
      turnOnMovementAlertLED]

/-- The dispatcher attempts the topic broadcast exactly once per call. -/
theorem dispatch_topic_one (env : Env) (s : Store) (a : MovementAlert) :
    (sendMovementAlertNotification env s a).2.1.topicSendAttempts = 1 := by
  cases hr : (activeTokensFor s a.deviceId).isEmpty <;>
    simp [sendMovementAlertNotification, hr, Effects.add, LedEffect.toEffects,
      turnOnMovementAlertLED]

/-- The dispatcher sends at most one multicast batch per call. -/
theorem dispatch_multicast_le (env : Env) (s : Store) (a : MovementAlert) :
    (sendMovementAlertNotification env s a).2.1.multicastBatches ≤ 1 := by
  cases hr : (activeTokensFor s a.deviceId).isEmpty
  · simp [sendMovementAlertNotification, hr, Effects.add,
      LedEffect.toEffects, turnOnMovementAlertLED]
    split <;> simp
  · simp [sendMovementAlertNotification, hr, Effects.add,
      LedEffect.toEffects, turnOnMovementAlertLED]

/-- The boolean returned by the dispatcher depends only on whether some
active non-expo token is registered, never on any delivery outcome. -/
theorem dispatch_result (env : Env) (s : Store) (a : MovementAlert) :
    (sendMovementAlertNotification env s a).2.2 =
      !(fcmTokensOf (activeTokensFor s a.deviceId)).isEmpty := by
  cases hr : (activeTokensFor s a.deviceId).isEmpty
  · simp [sendMovementAlertNotification, hr]
  · have hempty : activeTokensFor s a.deviceId = [] := by
      simpa using hr
    simp [sendMovementAlertNotification, hr, hempty, fcmTokensOf]

/-- C2: with the hardcoded 10 m threshold, a distance of at most 10 is not
movement and an evaluation tick creates no alert for it, while an exceeded
distance is classified low on (10, 25], medium on (25, 50] and high above
50 by the severity expression of the scheduled handler. -/
theorem C2_severity_tiers (d : ℚ) :
    (movementDetected d = true ↔ 10 < d) ∧
    (10 < d → d ≤ 25 → severityOf d = Severity.low) ∧
    (25 < d → d ≤ 50 → severityOf d = Severity.medium) ∧
    (50 < d → severityOf d = Severity.high) ∧
    (∀ (env : Env) (dist : Loc → Loc → ℚ) (deviceId : String) (s : Store)
        (r : LockRec) (current : Loc) (rest : List Loc),
      getDoc s.lockedLocations deviceId = some r →
      dist r.location current = d → d ≤ 10 →
      (scheduledLocationHistory env dist deviceId s
        (current :: rest)).1.movementAlerts = s.movementAlerts) := by
  refine ⟨?_, ?_, ?_, ?_, ?_⟩
  · simp [movementDetected]
  · intro h1 h2
    have hn50 : ¬ d > 50 := by linarith
    have hn25 : ¬ d > 25 := by linarith
    simp [severityOf, hn50, hn25]
  · intro h1 h2
    have hn50 : ¬ d > 50 := by linarith
    simp [severityOf, hn50, h1]
  · intro h1
    simp [severityOf, h1]
  · intro env dist deviceId s r current rest hlock hdist hle
    have hgt : ¬ dist r.location current > 10 := by
      rw [hdist]; exact not_lt.mpr hle
    by_cases hc : current.lat ≠ 0 ∧ current.lon ≠ 0
    · simp [scheduledLocationHistory, hlock, hc, hgt]
    · simp [scheduledLocationHistory, hlock, hc]

/-- Witness for C2 at concrete distances 30 and 5. -/
theorem C2_severity_tiers_witness :
    severityOf 30 = Severity.medium ∧
    (scheduledLocationHistory envAllOk (fun _ _ => 5) "dev1" lockFixture
      [loc1]).1.movementAlerts = lockFixture.movementAlerts :=
  ⟨(C2_severity_tiers 30).2.2.1 (by norm_num) (by norm_num),
   (C2_severity_tiers 5).2.2.2.2 envAllOk (fun _ _ => 5) "dev1" lockFixture
     (mkLockRec "dev1" (some "t0") loc0 none "t0") loc1 [] rfl rfl
     (by norm_num)⟩

/-- The haversine intermediate value is symmetric in the two coordinates. -/
theorem havA_symm (lat1 lon1 lat2 lon2 : ℝ) :
    havA lat1 lon1 lat2 lon2 = havA lat2 lon2 lat1 lon1 := by
  unfold havA
  have e1 : (lat1 - lat2) * Real.pi / 180 / 2 =
      -((lat2 - lat1) * Real.pi / 180 / 2) := by ring
  have e2 : (lon1 - lon2) * Real.pi / 180 / 2 =
      -((lon2 - lon1) * Real.pi / 180 / 2) := by ring
  rw [e1, e2, Real.sin_neg, Real.sin_neg]
  ring

/-- The haversine intermediate value vanishes on identical coordinates. -/
theorem havA_self (lat lon : ℝ) : havA lat lon lat lon = 0 := by
  unfold havA
  simp

/-- C8: calculateDistance is symmetric under swapping the two coordinate
pairs and is zero on identical coordinates. -/
theorem C8_distance_symm_self (lat1 lon1 lat2 lon2 : ℝ) :
    calculateDistance lat1 lon1 lat2 lon2 =
      calculateDistance lat2 lon2 lat1 lon1 ∧
    calculateDistance lat1 lon1 lat1 lon1 = 0 := by
  constructor
  · unfold calculateDistance
    rw [havA_symm lat1 lon1 lat2 lon2]
  · unfold calculateDistance
    rw [havA_self, Real.sqrt_zero, sub_zero, Real.sqrt_one]
    unfold atan2
    norm_num [Real.arctan_zero]

set_option maxRecDepth 10000 in
/-- C1: the source has no atomic claim-for-notification. getMovementAlerts
checks notificationSent only in its query snapshot and writes the flag
back after a successful dispatch, so two handlers that both complete the
query before either updates the flag both dispatch the same alert. On
cMedTok (one unsent medium alert, one registered fcm token) two listings
interleaved at their await points make two dispatch attempts, persist two
delivery summaries and activate the LED four times, where the claimed
guard allows exactly one dispatching claimant. -/
theorem C1_double_dispatch :
    (concurrentDoubleListing envAllOk cMedTok "dev1" 10).2.dispatchAttempts = 2 ∧
    (concurrentDoubleListing envAllOk cMedTok "dev1"
      10).1.notificationSummaries.length = 2 ∧
    (concurrentDoubleListing envAllOk cMedTok "dev1" 10).2.ledActivations = 4 := by
  decide

/-- C3 counterexample: a dispatch with zero registered tokens attempts the
topic broadcast but returns false and persists no DeliverySummary at all,
against the claimed summary with a false direct outcome. -/
theorem C3_counterexample :
    (sendMovementAlertNotification envAllOk ({} : Store)
      alertFixture).1.notificationSummaries = [] ∧
    (sendMovementAlertNotification envAllOk ({} : Store)
      alertFixture).2.1.topicSendAttempts = 1 ∧
    (sendMovementAlertNotification envAllOk ({} : Store) alertFixture).2.2 =
      false := by
  decide

/-- C3 amended: with zero active registered tokens the dispatcher sends
the topic broadcast as the sole channel (one topic attempt, no multicast,
one LED activation), returns false, and leaves the store unchanged, in
particular persisting no DeliverySummary. -/
theorem C3_zero_tokens (env : Env) (s : Store) (a : MovementAlert)
    (h : activeTokensFor s a.deviceId = []) :
    (sendMovementAlertNotification env s a).1 = s ∧
    (sendMovementAlertNotification env s a).2.1.topicSendAttempts = 1 ∧
    (sendMovementAlertNotification env s a).2.1.multicastBatches = 0 ∧
    (sendMovementAlertNotification env s a).2.1.ledActivations = 1 ∧
    (sendMovementAlertNotification env s a).2.2 = false := by
  simp [sendMovementAlertNotification, h, Effects.add, LedEffect.toEffects,
    turnOnMovementAlertLED]

/-- Witness for C3 on the empty store. -/
theorem C3_zero_tokens_witness :
    (sendMovementAlertNotification envAllOk ({} : Store) alertFixture).1 =
      ({} : Store) ∧
    (sendMovementAlertNotification envAllOk ({} : Store) alertFixture).2.2 =
      false := by
  have h := C3_zero_tokens envAllOk ({} : Store) alertFixture (by decide)
  exact ⟨h.1, h.2.2.2.2⟩

/-- C4 counterexample: a scheduled tick on a device with no LockRecord is
not write-free: it always appends the fetched data to location_history,
so the store changes. -/
theorem C4_counterexample :
    getDoc ({} : Store).lockedLocations "dev1" = none ∧
    (scheduledLocationHistory envAllOk (fun _ _ => 0) "dev1" ({} : Store)
      [loc1]).1 ≠ ({} : Store) ∧
    (scheduledLocationHistory envAllOk (fun _ _ => 0) "dev1" ({} : Store)
      [loc1]).1.locationHistory = 1 := by
  decide

/-- C4 amended: a scheduled tick on a device with no LockRecord performs
exactly the unconditional location_history append and nothing else: no
alert, no dispatch, no LED command, and every other collection is left
unchanged. -/
theorem C4_no_lock_frame (env : Env) (dist : Loc → Loc → ℚ)
    (deviceId : String) (s : Store) (items : List Loc)
    (h : getDoc s.lockedLocations deviceId = none) :
    scheduledLocationHistory env dist deviceId s items =
      ({ s with locationHistory := s.locationHistory + 1 },
        historyOnlyEffects) := by
  cases items with
  | nil => simp [scheduledLocationHistory, h]
  | cons a l => simp [scheduledLocationHistory, h]

/-- Witness for C4 on the empty store. -/
theorem C4_no_lock_frame_witness :
    scheduledLocationHistory envAllOk (fun _ _ => 0) "devX" ({} : Store) [] =
      ({ ({} : Store) with
          locationHistory := ({} : Store).locationHistory + 1 },
        historyOnlyEffects) :=
  C4_no_lock_frame envAllOk (fun _ _ => 0) "devX" ({} : Store) [] (by decide)

/-- C5 counterexample: re-locking dev1 (previously locked at loc0) at loc1
succeeds, but the entry appended to the lock history carries the new
record state at loc1, not the prior state at loc0. -/
theorem C5_counterexample :
    (getDoc lockFixture.lockedLocations "dev1").map (fun r => r.location) =
      some loc0 ∧
    ((postLockedLocation lockFixture "dev1" (some "t1") loc1 none
      "t1").1.lockHistory.getLast?).map (fun e => e.data.location) =
      some loc1 ∧
    (postLockedLocation lockFixture "dev1" (some "t1") loc1 none "t1").2 =
      true ∧
    loc1 ≠ loc0 := by
  decide

/-- C5 amended: locking an already locked device always succeeds and
replaces the prior record with the freshly built one; the history entry
appended by the lock operation archives the new record state under action
lock (the prior state is not what is archived); and the new record
carries no distance, alert or check fields until the first evaluation
tick. -/
theorem C5_overwrite_lock (s : Store) (deviceId : String) (prior : LockRec)
    (lockedAtParam : Option String) (loc : Loc) (statusParam : Option String)
    (nowIso : String)
    (hprior : getDoc s.lockedLocations deviceId = some prior)
    (hdev : deviceId ≠ "") (hlat : loc.lat ≠ 0) (hlon : loc.lon ≠ 0) :
    (postLockedLocation s deviceId lockedAtParam loc statusParam nowIso).2 =
      true ∧
    getDoc (postLockedLocation s deviceId lockedAtParam loc statusParam
        nowIso).1.lockedLocations deviceId =
      some (mkLockRec deviceId lockedAtParam loc statusParam nowIso) ∧
    (postLockedLocation s deviceId lockedAtParam loc statusParam
        nowIso).1.lockHistory =
      s.lockHistory ++
        [{ action := "lock",
           data := mkLockRec deviceId lockedAtParam loc statusParam nowIso }] ∧
    (mkLockRec deviceId lockedAtParam loc statusParam nowIso).currentDistance =
      none ∧
    (mkLockRec deviceId lockedAtParam loc statusParam
      nowIso).lastMovementAlert = none ∧
    (mkLockRec deviceId lockedAtParam loc statusParam nowIso).alertCount =
      none ∧
    (mkLockRec deviceId lockedAtParam loc statusParam nowIso).lastAlertAt =
      false ∧
    (mkLockRec deviceId lockedAtParam loc statusParam nowIso).lastCheckedAt =
      false := by
  have hcond : ¬ (deviceId = "" ∨ loc.lat = 0 ∨ loc.lon = 0) := by
    push_neg
    exact ⟨hdev, hlat, hlon⟩
  simp [postLockedLocation, hcond, getDoc_setDoc_same, mkLockRec]

/-- Witness for C5: re-lock of the already locked dev1. -/
theorem C5_overwrite_lock_witness :
    (postLockedLocation lockFixture "dev1" (some "t1") loc1 none "t1").2 =
      true ∧
    getDoc (postLockedLocation lockFixture "dev1" (some "t1") loc1 none
        "t1").1.lockedLocations "dev1" =
      some (mkLockRec "dev1" (some "t1") loc1 none "t1") := by
  have h := C5_overwrite_lock lockFixture "dev1"
    (mkLockRec "dev1" (some "t0") loc0 none "t0") (some "t1") loc1 none "t1"
    (by decide) (by decide) (by decide) (by decide)
  exact ⟨h.1, h.2.1⟩

set_option maxRecDepth 10000 in
/-- C6 counterexample: with one registered fcm token whose delivery fails
and a failing topic send, no recipient on any channel succeeded, yet the
dispatcher reports overall success; the failed token is even quarantined
in the same run. -/
theorem C6_counterexample :
    (sendMovementAlertNotification envAllFail tokStore alertFixture).2.2 =
      true ∧
    (sendMovementAlertNotification envAllFail tokStore
      alertFixture).1.failedTokenDocs = [["AAAABBBBCCCCDDDDEEEEFFFF"]] ∧
    envAllFail.topicOk = false := by
  decide

/-- C6 amended: the dispatcher reports overall success exactly when at
least one active non-expo token is registered for the device, independent
of every per-recipient and topic outcome; and it never retries: one
dispatch attempt, one topic attempt, at most one multicast batch per
call. -/
theorem C6_overall_success (env : Env) (s : Store) (a : MovementAlert) :
    (sendMovementAlertNotification env s a).2.2 =
      !(fcmTokensOf (activeTokensFor s a.deviceId)).isEmpty ∧
    (sendMovementAlertNotification env s a).2.1.dispatchAttempts = 1 ∧
    (sendMovementAlertNotification env s a).2.1.topicSendAttempts = 1 ∧
    (sendMovementAlertNotification env s a).2.1.multicastBatches ≤ 1 :=
  ⟨dispatch_result env s a, dispatch_attempts_one env s a,
    dispatch_topic_one env s a, dispatch_multicast_le env s a⟩

/-- C7 counterexample: one detected movement event on a scheduled tick
performs two LED activations (one direct, one inside the dispatcher), not
exactly one, and accordingly schedules two deactivations. -/
theorem C7_counterexample :
    (scheduledLocationHistory envAllOk (fun _ _ => 30) "dev1" lockFixture
      [loc1]).2.ledActivations = 2 ∧
    (scheduledLocationHistory envAllOk (fun _ _ => 30) "dev1" lockFixture
      [loc1]).2.ledDeactivationDelays = [60000, 60000] := by
  decide

/-- C7 amended: every activation call sends the fixed 5-repetition pattern
and schedules exactly one deactivation 60000 ms later regardless of the
activation outcome, and a detected movement event on a scheduled tick
performs exactly two such activations, hence two scheduled
deactivations. -/
theorem C7_led_timing :
    (∀ b : Bool, turnOnMovementAlertLED b =
      { sent := movementAlertLedConfig, deactivationDelaysMs := [60000] }) ∧
    movementAlertLedConfig.repetitions = 5 ∧
    (∀ (env : Env) (dist : Loc → Loc → ℚ) (deviceId : String) (s : Store)
        (r : LockRec) (current : Loc) (rest : List Loc),
      getDoc s.lockedLocations deviceId = some r →
      current.lat ≠ 0 → current.lon ≠ 0 →
      dist r.location current > 10 →
      (scheduledLocationHistory env dist deviceId s
        (current :: rest)).2.ledActivations = 2 ∧
      (scheduledLocationHistory env dist deviceId s
        (current :: rest)).2.ledDeactivationDelays = [60000, 60000]) := by
  refine ⟨fun _ => rfl, rfl, ?_⟩
  intro env dist deviceId s r current rest hlock hlat hlon h10
  have hc : current.lat ≠ 0 ∧ current.lon ≠ 0 := ⟨hlat, hlon⟩
  constructor
  · simp [scheduledLocationHistory, hlock, hc, h10, Effects.add,
      LedEffect.toEffects, turnOnMovementAlertLED, historyOnlyEffects,
      dispatch_led_activations]
  · simp [scheduledLocationHistory, hlock, hc, h10, Effects.add,
      LedEffect.toEffects, turnOnMovementAlertLED, historyOnlyEffects,
      dispatch_led_delays]

/-- Witness for C7 on the locked fixture at distance 30. -/
theorem C7_led_timing_witness :
    (scheduledLocationHistory envAllOk (fun _ _ => 30) "dev1" lockFixture
      [loc1]).2.ledDeactivationDelays = [60000, 60000] :=
  (C7_led_timing.2.2 envAllOk (fun _ _ => 30) "dev1" lockFixture
    (mkLockRec "dev1" (some "t0") loc0 none "t0") loc1 [] (by decide)
    (by decide) (by decide) (by decide)).2

set_option maxRecDepth 10000 in
/-- C9 counterexample: two distinct tokens for the same device that share
their first 20 characters map to the same document id, so the second
registration overwrites the first and only one record remains. -/
theorem C9_counterexample :
    ("AAAAAAAAAAAAAAAAAAAA1" : String) ≠ "AAAAAAAAAAAAAAAAAAAA2" ∧
    (registerFCMToken (registerFCMToken {} "dev1" "AAAAAAAAAAAAAAAAAAAA1"
        none none none).1 "dev1" "AAAAAAAAAAAAAAAAAAAA2" none none
        none).1.userPushTokens.length = 1 ∧
    (registerFCMToken (registerFCMToken {} "dev1" "AAAAAAAAAAAAAAAAAAAA1"
        none none none).1 "dev1" "AAAAAAAAAAAAAAAAAAAA2" none none
        none).1.userPushTokens.map (fun p => p.2.pushToken) =
      ["AAAAAAAAAAAAAAAAAAAA2"] := by
  decide

/-- C9 amended: token records are keyed by deviceId plus the first 20
characters of the token, not by the full pair. Registering the same pair
twice stores one record (the second write is the identity), and two
registrations whose keys differ coexist without overwriting; tokens that
agree on their first 20 characters collide on one key. -/
theorem C9_token_keys (s : Store) (d t1 t2 : String)
    (hd : d ≠ "") (h1 : t1 ≠ "") (h2 : t2 ≠ "")
    (hne : tokenKey d t1 ≠ tokenKey d t2) :
    (registerFCMToken (registerFCMToken s d t1 none none none).1 d t1 none
      none none).1 = (registerFCMToken s d t1 none none none).1 ∧
    getDoc (registerFCMToken (registerFCMToken s d t1 none none none).1 d t2
        none none none).1.userPushTokens (tokenKey d t2) =
      some (mkTokenData d t2 none none none) ∧
    getDoc (registerFCMToken (registerFCMToken s d t1 none none none).1 d t2
        none none none).1.userPushTokens (tokenKey d t1) =
      some (mkTokenData d t1 none none none) := by
  have hc1 : ¬ (d = "" ∨ t1 = "") := by
    push_neg
    exact ⟨hd, h1⟩
  have hc2 : ¬ (d = "" ∨ t2 = "") := by
    push_neg
    exact ⟨hd, h2⟩
  have hstep : ∀ (l : List (String × TokenData)) (v : TokenData),
      getDoc (setDoc l (tokenKey d t2) v) (tokenKey d t1) =
        getDoc l (tokenKey d t1) :=
    fun l v => getDoc_setDoc_ne l (tokenKey d t2) (tokenKey d t1) v hne
  refine ⟨?_, ?_, ?_⟩
  · simp [registerFCMToken, hc1, setDoc_setDoc_same]
  · simp [registerFCMToken, hc1, hc2, getDoc_setDoc_same]
  · simp [registerFCMToken, hc1, hc2, hstep, getDoc_setDoc_same]

set_option maxRecDepth 10000 in
/-- Witness for C9 with two tokens that differ inside the first 20
characters. -/
theorem C9_token_keys_witness :
    getDoc (registerFCMToken (registerFCMToken ({} : Store) "dev1"
        "AAAAAAAAAAAAAAAAAAAA1" none none none).1 "dev1"
        "BBBBBBBBBBBBBBBBBBBB2" none none none).1.userPushTokens
      (tokenKey "dev1" "AAAAAAAAAAAAAAAAAAAA1") =
    some (mkTokenData "dev1" "AAAAAAAAAAAAAAAAAAAA1" none none none) :=
  (C9_token_keys ({} : Store) "dev1" "AAAAAAAAAAAAAAAAAAAA1"
    "BBBBBBBBBBBBBBBBBBBB2" (by decide) (by decide) (by decide)
    (by decide)).2.2

/-- C10 counterexample: the alert in cLow was created by a tick whose
dispatch attempt reported failure (zero tokens), and it stays unsent; but
because its severity is low, a subsequent on-demand listing does not
re-dispatch it at all, against the claim that every subsequent listing
re-dispatches every failed alert. -/
theorem C10_counterexample :
    (scheduledLocationHistory envAllOk (fun _ _ => 15) "dev1" lockFixture
      [loc1]).2.dispatchAttempts = 1 ∧
    (getDoc cLow.movementAlerts 0).map
      (fun a => (a.severity, a.notificationSent)) =
      some (Severity.low, false) ∧
    (getMovementAlerts envAllOk cLow "dev1" 10 none).2.dispatchAttempts = 0 ∧
    (getMovementAlerts envAllOk cLow "dev1" 10 none).1 = cLow := by
  decide

/-- C10 amended: an alert whose dispatch reported failure is never marked
notified, and as long as it is returned by the listing with severity above
low it is re-dispatched (and the LED re-activated twice) by every
subsequent on-demand listing, without bound: after n listings on cMed the
alert is still unsent and n dispatch attempts and 2n LED activations have
accumulated. Low-severity failed alerts are skipped by the listing filter
(see the counterexample). -/
theorem C10_unbounded_redispatch :
    (getDoc cMed.movementAlerts 0).map (fun a => a.notificationSent) =
      some false ∧
    cMed.userPushTokens = [] ∧
    ∀ n : ℕ,
      (iterListing envAllOk "dev1" 10 none n cMed).1 = cMed ∧
      (iterListing envAllOk "dev1" 10 none n cMed).2.dispatchAttempts = n ∧
      (iterListing envAllOk "dev1" 10 none n cMed).2.ledActivations = 2 * n ∧
      (iterListing envAllOk "dev1" 10 none n cMed).2.topicSendAttempts = n := by
  refine ⟨by decide, by decide, ?_⟩
  intro n
  induction n with
  | zero => exact ⟨rfl, rfl, rfl, rfl⟩
  | succ m ih =>
    obtain ⟨ih1, ih2, ih3, ih4⟩ := ih
    have hround : getMovementAlerts envAllOk cMed "dev1" 10 none =
        (cMed,
          { locationHistoryWrites := 0, ledActivations := 2,
            ledDeactivationDelays := [60000, 60000], topicSendAttempts := 1,
            multicastBatches := 0, dispatchAttempts := 1 }) := by decide
    refine ⟨?_, ?_, ?_, ?_⟩
    · simp [iterListing, hround, ih1]
    · simp [iterListing, hround, Effects.add, ih1, ih2]
      omega
    · simp [iterListing, hround, Effects.add, ih1, ih3]
      omega
    · simp [iterListing, hround, Effects.add, ih1, ih4]
      omega

end Tracker
